import Mathlib

/-!
Shallow embedding of the concurrent composition and result-gathering engine
of the `sghi-etl-commons` repository, together with theorems settling the
behavioural claims about it.

The embedding covers:

* the two result-gatherer policies of
  `src/sghi/etl/commons/utils/result_gatherers.py` (`fail_fast` and
  `ignored_failed`), split into their call phase (argument validation,
  returning an un-iterated generator) and their consumption phase
  (iterating the generator);
* the five composite roles of `sources.py`, `processors.py` and `sinks.py`
  (`GatherSource`, `ScatterGatherProcessor`, `SplitGatherProcessor`,
  `ScatterSink`, `SplitSink`) with their lifecycle state (per-embedded-role
  disposed flags, the internal concurrent executor flag, the `ExitStack`)
  made explicit.

External collaborators that live in the separate `sghi-commons` package
(`Disposable`, `ConcurrentExecutor`, `noop_retry`, the `ensure_*` helpers,
`future_succeeded`) are modelled from the interface contracts the spec
gives for them; each such definition carries a doc comment saying so.

Python exceptions are modelled by the `Exn` type; a raising operation
returns `Except Exn`.  Concurrency note: each unit of work mutates only
the lifecycle state of its own embedded role, so running the units
sequentially in submission order (as `runTasks` does) is a faithful
linearisation of the thread-pool execution; the ordering guarantee
(handles come back in unit-of-work order) is the one the spec gives for
the concurrent executor.
-/

namespace SghiEtl

/-- The kinds of Python exception that appear in the modelled code paths. -/
inductive ExnKind where
  | typeError
  | valueError
  | resourceDisposedError
  | cancelledError
  | indexError
  | runtimeError
  deriving DecidableEq, Repr

/-- A Python exception: a kind, a message, and (for exceptions raised with
`raise ... from exp`) an optional cause chained via `__cause__`. -/
inductive Exn where
  | base (kind : ExnKind) (msg : String)
  | chained (kind : ExnKind) (msg : String) (cause : Exn)
  deriving DecidableEq, Repr

/-- `raise e from c` in Python: attach `c` as the `__cause__` of `e`,
overwriting any previous cause. -/
def Exn.withCause : Exn → Exn → Exn
  | .base k m, c => .chained k m c
  | .chained k m _, c => .chained k m c

/-- The resolved state of a `concurrent.futures.Future`: completed with a
value, completed by raising an exception, or cancelled. -/
inductive FutureState (α : Type) where
  | success (v : α)
  | failure (e : Exn)
  | cancelled
  deriving DecidableEq, Repr

/-- `Future.result()`: the value on success, re-raising the stored exception
on failure, and raising `CancelledError` on a cancelled future. -/
def FutureState.result : FutureState α → Except Exn α
  | .success v => .ok v
  | .failure e => .error e
  | .cancelled => .error (.base .cancelledError "cancelled")

/-- Modelled from the spec: `sghi.utils.future_succeeded` (external
collaborator) — a future succeeded iff it was not cancelled and no uncaught
exception was raised by its callee. -/
def future_succeeded : FutureState α → Bool
  | .success _ => true
  | _ => false

/-- What consuming a lazy result sequence produces: the values yielded
before iteration ends, and the exception (if any) raised mid-iteration;
`err = none` means the sequence was exhausted without raising. -/
structure GatherOut (α : Type) where
  vals : List α
  err : Option Exn
  deriving DecidableEq, Repr

/-- Prepend one yielded value to the outcome of consuming the rest. -/
def GatherOut.cons (v : α) (g : GatherOut α) : GatherOut α :=
  ⟨v :: g.vals, g.err⟩

/-- The `futures` argument of a gatherer as a dynamically typed Python
value: either an iterable of futures or a value that is not an `Iterable`. -/
inductive FuturesArg (α : Type) where
  | ofIterable (fs : List (FutureState α))
  | notIterable

/-- The `exc_wrapper_factory` argument of `fail_fast` as a dynamically
typed Python value: `None`, a callable (callables are truthy), or a
non-callable object with the given truthiness. -/
inductive WrapperArg where
  | pyNone
  | ofCallable (f : Option String → Exn)
  | notCallable (truthy : Bool)

/-- Python truthiness of the `exc_wrapper_factory` argument
(`None` is falsy, functions are truthy). -/
def WrapperArg.truthy : WrapperArg → Bool
  | .pyNone => false
  | .ofCallable _ => true
  | .notCallable t => t

/-- `callable(exc_wrapper_factory)`. -/
def WrapperArg.isCallable : WrapperArg → Bool
  | .ofCallable _ => true
  | _ => false

/-- The generator object returned by `fail_fast` before anyone iterates it:
it closes over the futures and the wrapper configuration. -/
structure FailFastGen (α : Type) where
  futures : List (FutureState α)
  wrapper : WrapperArg
  msg : Option String

/-- The call phase of `fail_fast` (`result_gatherers.py`): validate that
`futures` is an `Iterable` (else `TypeError`) and that
`exc_wrapper_factory`, when truthy, is callable (else `ValueError`), then
return the nested `_do_gather()` generator without running it. -/
def fail_fast (futures : FuturesArg α) (exc_wrapper_factory : WrapperArg)
    (exc_wrapper_message : Option String) : Except Exn (FailFastGen α) :=
  match futures with
  | .notIterable =>
    .error (.base .typeError "'futures' MUST be an Iterable.")
  | .ofIterable fs =>
    if exc_wrapper_factory.truthy && !exc_wrapper_factory.isCallable then
      .error (.base .valueError
        "When not None, 'exc_wrapper_factory' MUST be a callable.")
    else
      .ok ⟨fs, exc_wrapper_factory, exc_wrapper_message⟩

/-- The exception raised by `_do_gather`'s `except BaseException` block for
original exception `e`: with a truthy factory, `raise factory(msg) from e`
(calling a truthy non-callable raises `TypeError`); otherwise re-`raise`
the original. -/
def failFastStep (w : WrapperArg) (msg : Option String) (e : Exn) : Exn :=
  if w.truthy then
    match w with
    | .ofCallable f => (f msg).withCause e
    | _ => .base .typeError "object is not callable"
  else e

/-- Iterating `fail_fast._do_gather`: for each future in order, yield
`future.result()`; on the first future whose `result()` raises, raise per
`failFastStep` and stop producing elements. -/
def failFastDoGather (w : WrapperArg) (msg : Option String) :
    List (FutureState α) → GatherOut α
  | [] => ⟨[], none⟩
  | f :: fs =>
    match f.result with
    | .ok v => GatherOut.cons v (failFastDoGather w msg fs)
    | .error e => ⟨[], some (failFastStep w msg e)⟩

/-- Consume (fully iterate) the generator returned by `fail_fast`. -/
def FailFastGen.consume (g : FailFastGen α) : GatherOut α :=
  failFastDoGather g.wrapper g.msg g.futures

/-- The generator object returned by `ignored_failed` before anyone
iterates it. -/
structure IgnoredFailedGen (α : Type) where
  futures : List (FutureState α)

/-- The call phase of `ignored_failed` (`result_gatherers.py`): validate
that `futures` is an `Iterable` (else `TypeError`), then return the nested
`_do_gather()` generator without running it. -/
def ignored_failed (futures : FuturesArg α) : Except Exn (IgnoredFailedGen α) :=
  match futures with
  | .notIterable =>
    .error (.base .typeError "'futures' MUST be an Iterable.")
  | .ofIterable fs => .ok ⟨fs⟩

/-- Iterating `ignored_failed._do_gather`:
`yield from (ftr.result() for ftr in filter(future_succeeded, futures))`. -/
def ignoredFailedDoGather : List (FutureState α) → GatherOut α
  | [] => ⟨[], none⟩
  | f :: fs =>
    if future_succeeded f then
      match f.result with
      | .ok v => GatherOut.cons v (ignoredFailedDoGather fs)
      | .error e => ⟨[], some e⟩
    else ignoredFailedDoGather fs

/-- Consume (fully iterate) the generator returned by `ignored_failed`. -/
def IgnoredFailedGen.consume (g : IgnoredFailedGen α) : GatherOut α :=
  ignoredFailedDoGather g.futures

/-- The successful value of a future, when it has one (spec-side notion
used to state what `ignored_failed` yields). -/
def successValue : FutureState α → Option α
  | .success v => some v
  | _ => none

/-- Modelled from the spec: the disposed-resource error raised by any
resource-aware operation invoked on a disposed `Disposable`
(`sghi.disposable`, external collaborator). -/
def resourceDisposedExn : Exn :=
  .base .resourceDisposedError "Resource already disposed."

/-- The mutable lifecycle state a composite role carries: the per-embedded-
role `_is_disposed` flags, a count of how many times each embedded role's
`dispose()` has been invoked, the internal `ConcurrentExecutor`'s disposed
flag, the composite's own `_is_disposed` flag, and whether the composite's
`ExitStack` has already been closed (a closed stack holds no callbacks). -/
structure Lifecycle where
  embDisposed : List Bool
  embDisposeCount : List Nat
  execDisposed : Bool
  isDisposed : Bool
  stackClosed : Bool
  deriving DecidableEq, Repr

/-- The lifecycle state of a freshly constructed composite over `n`
embedded roles: nothing disposed, the `ExitStack` holding one disposal
callback per embedded role. -/
def Lifecycle.init (n : Nat) : Lifecycle :=
  ⟨List.replicate n false, List.replicate n 0, false, false, false⟩

/-- The `_is_disposed` flag of embedded role `i`. -/
def Lifecycle.embIsDisposed (lc : Lifecycle) (i : Nat) : Bool :=
  lc.embDisposed.getD i true

/-- Increment the entry at index `i`. -/
def bumpAt : List Nat → Nat → List Nat
  | [], _ => []
  | x :: xs, 0 => (x + 1) :: xs
  | x :: xs, n + 1 => x :: bumpAt xs n

/-- Invoke `dispose()` on embedded role `i`: its `_is_disposed` flag is set
and its dispose-invocation count goes up by one. -/
def Lifecycle.disposeEmb (lc : Lifecycle) (i : Nat) : Lifecycle :=
  { lc with
    embDisposed := lc.embDisposed.set i true
    embDisposeCount := bumpAt lc.embDisposeCount i }

/-- `ExitStack.close()` on the composite's `_exit_stack`: if the stack has
not been closed yet, pop and run every registered `__exit__` callback —
disposing each embedded role — leaving the stack empty; closing an already
closed (empty) stack does nothing. -/
def exitStackClose (lc : Lifecycle) : Lifecycle :=
  if lc.stackClosed then lc
  else
    { lc with
      embDisposed := List.replicate lc.embDisposed.length true
      embDisposeCount := lc.embDisposeCount.map (· + 1)
      stackClosed := true }

/-- Modelled from the spec: `ConcurrentExecutor.dispose()` (external
collaborator, `sghi.task`) — idempotently releases the underlying thread
pool; in-flight units run to completion, so already-obtained futures keep
their results. -/
def executorDispose (lc : Lifecycle) : Lifecycle :=
  { lc with execDisposed := true }

/-- The body shared by all five composite `dispose()` methods:
`self._is_disposed = True`, then `self._exit_stack.close()`, then
`self._executor.dispose()` (GatherSource and the scatter/split composites
all have exactly these lines; `ProcessorPipe` has no executor). -/
def compositeDispose (lc : Lifecycle) : Lifecycle :=
  executorDispose (exitStackClose { lc with isDisposed := true })

/-- Modelled from the spec: `ConcurrentExecutor.execute` (external
collaborator, `sghi.task`) — submit every unit of work in order and return
one future per unit, in the same order.  Each unit mutates only its own
embedded role's lifecycle entry, so threading the state through the units
in submission order is a faithful linearisation of the concurrent run.
`step b i lc` runs the unit of work for embedded role `b` at index `i`. -/
def runTasks (step : β → Nat → Lifecycle → FutureState γ × Lifecycle) :
    List β → Nat → Lifecycle → List (FutureState γ) × Lifecycle
  | [], _, lc => ([], lc)
  | b :: rest, i, lc =>
    let (f, lc1) := step b i lc
    let (fs, lc2) := runTasks step rest (i + 1) lc1
    (f :: fs, lc2)

/-- `tuple(self._result_gatherer(futures))` with the default `fail_fast`
gatherer: call the gatherer on the futures (always an iterable here, no
wrapper factory), then materialise its lazy sequence — `tuple()` collects
the yielded values and propagates the exception the sequence raises
mid-iteration, if any. -/
def materializeFailFast (futures : List (FutureState β)) : Except Exn (List β) :=
  match fail_fast (.ofIterable futures) .pyNone none with
  | .error e => .error e
  | .ok gen =>
    match gen.consume with
    | ⟨vals, none⟩ => .ok vals
    | ⟨_, some e⟩ => .error e

/-- A `GatherSource` (`sources.py`) with the default configuration the
claims fix (`noop_retry` retry-policy factory, `fail_fast` gatherer): the
behaviour of each embedded source's `draw` — the wrapped callable's result
or the exception it raises — plus the lifecycle state. -/
structure GatherSource (α : Type) where
  sources : List (Except Exn α)
  lc : Lifecycle

/-- `GatherSource.__init__` over the given embedded sources (freshly
constructed, nothing disposed). -/
def GatherSource.init (sources : List (Except Exn α)) : GatherSource α :=
  ⟨sources, Lifecycle.init sources.length⟩

/-- `GatherSource._source_to_task`'s `do_draw` for embedded source `i`:
`with s as _s:` enters the source (raising the disposed-resource error if
it is already disposed — in that case the block is never entered and no
`__exit__` runs), draws via the no-op retry policy, and on leaving the
`with` block — normally or by exception — `Disposable.__exit__` disposes
the source.  The raised-or-returned outcome is recorded in the future. -/
def source_to_task (b : Except Exn α) (i : Nat) (lc : Lifecycle) :
    FutureState α × Lifecycle :=
  if lc.embIsDisposed i then
    (.failure resourceDisposedExn, lc)
  else
    let lc1 := lc.disposeEmb i
    match b with
    | .ok v => (.success v, lc1)
    | .error e => (.failure e, lc1)

/-- `GatherSource.draw`: the `@not_disposed` guard, then
`with self._executor as executor:` (whose `__enter__` raises the
disposed-resource error if the internal executor is already disposed),
`executor.execute(None)` obtaining the futures, then — because the `with`
block ends — `Disposable.__exit__` disposes the internal executor; finally
`tuple(self._result_gatherer(futures))`. -/
def GatherSource.draw (g : GatherSource α) :
    Except Exn (List α) × GatherSource α :=
  if g.lc.isDisposed then (.error resourceDisposedExn, g)
  else if g.lc.execDisposed then (.error resourceDisposedExn, g)
  else
    let (futures, lc1) := runTasks (fun b i lc => source_to_task b i lc)
      g.sources 0 g.lc
    let lc2 := executorDispose lc1
    (materializeFailFast futures, { g with lc := lc2 })

/-- `GatherSource.dispose`. -/
def GatherSource.dispose (g : GatherSource α) : GatherSource α :=
  { g with lc := compositeDispose g.lc }

/-- A `ScatterGatherProcessor` (`processors.py`) with the default
configuration the claims fix: the behaviour of each embedded processor's
`apply` plus the lifecycle state. -/
structure ScatterGatherProcessor (α β : Type) where
  processors : List (α → Except Exn β)
  lc : Lifecycle

/-- `ScatterGatherProcessor.__init__` over the given embedded processors. -/
def ScatterGatherProcessor.init (processors : List (α → Except Exn β)) :
    ScatterGatherProcessor α β :=
  ⟨processors, Lifecycle.init processors.length⟩

/-- `ScatterGatherProcessor._processor_to_task`'s `do_apply` for embedded
processor `i`: `_p = p.__enter__()` (raising the disposed-resource error if
the processor is disposed — note: no `with`, so nothing is disposed here),
then apply via the no-op retry policy to the shared raw data. -/
def processor_to_task (b : α → Except Exn β) (raw_data : α) (i : Nat)
    (lc : Lifecycle) : FutureState β × Lifecycle :=
  if lc.embIsDisposed i then
    (.failure resourceDisposedExn, lc)
  else
    match b raw_data with
    | .ok v => (.success v, lc)
    | .error e => (.failure e, lc)

/-- `ScatterGatherProcessor.apply`: the `@not_disposed` guard, then
`executor = self._executor.__enter__()` (disposed-resource error if the
internal executor is disposed; unlike `GatherSource.draw` there is no
`with` block, so the executor is NOT disposed afterwards),
`executor.execute(raw_data)`, then `tuple(self._result_gatherer(futures))`. -/
def ScatterGatherProcessor.apply (p : ScatterGatherProcessor α β)
    (raw_data : α) : Except Exn (List β) × ScatterGatherProcessor α β :=
  if p.lc.isDisposed then (.error resourceDisposedExn, p)
  else if p.lc.execDisposed then (.error resourceDisposedExn, p)
  else
    let (futures, lc1) := runTasks
      (fun b i lc => processor_to_task b raw_data i lc) p.processors 0 p.lc
    (materializeFailFast futures, { p with lc := lc1 })

/-- `ScatterGatherProcessor.dispose`. -/
def ScatterGatherProcessor.dispose (p : ScatterGatherProcessor α β) :
    ScatterGatherProcessor α β :=
  { p with lc := compositeDispose p.lc }

/-- A split-variant argument as a dynamically typed Python value: an
ordered `Sequence` or a value that is not a `collections.abc.Sequence`. -/
inductive SeqArg (α : Type) where
  | ofSeq (xs : List α)
  | notSeq

/-- The `ensure_predicate` message of the split variants, built like the
source's f-string: it names the expected size (the number of embedded
roles) and the actual size of the supplied sequence. -/
def expectedSizeMsg (argName : String) (expected actual : Nat) : String :=
  "Expected '" ++ argName ++ "' to be of size " ++ toString expected ++
    " but got size " ++ toString actual ++ " instead."

/-- A `SplitGatherProcessor` (`processors.py`) with the default
configuration the claims fix. -/
structure SplitGatherProcessor (α β : Type) where
  processors : List (α → Except Exn β)
  lc : Lifecycle

/-- `SplitGatherProcessor.__init__` over the given embedded processors. -/
def SplitGatherProcessor.init (processors : List (α → Except Exn β)) :
    SplitGatherProcessor α β :=
  ⟨processors, Lifecycle.init processors.length⟩

/-- `SplitGatherProcessor._processor_to_task`'s `do_apply` for embedded
processor `i`: `p.__enter__()` then apply to `raw_data[i]` (Python list
indexing raises `IndexError` out of range; `apply` has already checked the
length, so the index is in range there). -/
def split_processor_to_task (b : α → Except Exn β) (raw_data : List α)
    (i : Nat) (lc : Lifecycle) : FutureState β × Lifecycle :=
  if lc.embIsDisposed i then
    (.failure resourceDisposedExn, lc)
  else
    match raw_data[i]? with
    | none => (.failure (.base .indexError "list index out of range"), lc)
    | some x =>
      match b x with
      | .ok v => (.success v, lc)
      | .error e => (.failure e, lc)

/-- `SplitGatherProcessor.apply`: the `@not_disposed` guard, then
`ensure_instance_of(raw_data, Sequence)` (else `TypeError`), then
`ensure_predicate(len(raw_data) == len(self._processors))` (else
`ValueError` naming both sizes) — both before anything is submitted —
then `self._executor.__enter__()`, `executor.execute(raw_data)` and
`tuple(self._result_gatherer(futures))`. -/
def SplitGatherProcessor.apply (p : SplitGatherProcessor α β)
    (raw_data : SeqArg α) : Except Exn (List β) × SplitGatherProcessor α β :=
  if p.lc.isDisposed then (.error resourceDisposedExn, p)
  else
    match raw_data with
    | .notSeq =>
      (.error
        (.base .typeError
          "'raw_data' MUST be a collections.abc.Sequence object."), p)
    | .ofSeq xs =>
      if xs.length = p.processors.length then
        if p.lc.execDisposed then (.error resourceDisposedExn, p)
        else
          let (futures, lc1) := runTasks
            (fun b i lc => split_processor_to_task b xs i lc)
            p.processors 0 p.lc
          (materializeFailFast futures, { p with lc := lc1 })
      else
        (.error
          (.base .valueError
            (expectedSizeMsg "raw_data" p.processors.length xs.length)), p)

/-- `SplitGatherProcessor.dispose`. -/
def SplitGatherProcessor.dispose (p : SplitGatherProcessor α β) :
    SplitGatherProcessor α β :=
  { p with lc := compositeDispose p.lc }

/-- A `ScatterSink` (`sinks.py`) with the default configuration the claims
fix: the behaviour of each embedded sink's `drain` (`none` = drains
silently, `some e` = raises `e`) plus the lifecycle state. -/
structure ScatterSink (α : Type) where
  sinks : List (α → Option Exn)
  lc : Lifecycle

/-- `ScatterSink.__init__` over the given embedded sinks. -/
def ScatterSink.init (sinks : List (α → Option Exn)) : ScatterSink α :=
  ⟨sinks, Lifecycle.init sinks.length⟩

/-- `ScatterSink._sink_to_task`'s `do_drain` for embedded sink `i`:
`_s = s.__enter__()` (disposed-resource error if the sink is disposed; no
`with`, so nothing is disposed), then drain the shared processed data via
the no-op retry policy. -/
def sink_to_task (b : α → Option Exn) (processed_data : α) (i : Nat)
    (lc : Lifecycle) : FutureState Unit × Lifecycle :=
  if lc.embIsDisposed i then
    (.failure resourceDisposedExn, lc)
  else
    match b processed_data with
    | none => (.success (), lc)
    | some e => (.failure e, lc)

/-- `ScatterSink.drain`: the `@not_disposed` guard, then
`executor = self._executor.__enter__()`, `executor.execute(processed_data)`
obtaining the futures, then `self._result_gatherer(futures)` — the line
calls the gatherer (here the default `fail_fast`, whose argument checks
run and which returns its generator) but DISCARDS the returned generator
without ever iterating it, and the method returns `None`. -/
def ScatterSink.drain (s : ScatterSink α) (processed_data : α) :
    Except Exn Unit × ScatterSink α :=
  if s.lc.isDisposed then (.error resourceDisposedExn, s)
  else if s.lc.execDisposed then (.error resourceDisposedExn, s)
  else
    let (futures, lc1) := runTasks
      (fun b i lc => sink_to_task b processed_data i lc) s.sinks 0 s.lc
    match fail_fast (.ofIterable futures) .pyNone none with
    | .error e => (.error e, { s with lc := lc1 })
    | .ok _ => (.ok (), { s with lc := lc1 })

/-- Modelled from the spec: what `ScatterSink.drain` is specified to do in
its gathering step — "materialize/return its yielded sequence (sinks
discard the sequence's values but still force evaluation so failures
surface)".  Identical to `ScatterSink.drain` except that the gatherer's
lazy sequence is fully consumed and its mid-iteration exception, if any,
is propagated (the yielded values are discarded). -/
def ScatterSink.drainSpec (s : ScatterSink α) (processed_data : α) :
    Except Exn Unit × ScatterSink α :=
  if s.lc.isDisposed then (.error resourceDisposedExn, s)
  else if s.lc.execDisposed then (.error resourceDisposedExn, s)
  else
    let (futures, lc1) := runTasks
      (fun b i lc => sink_to_task b processed_data i lc) s.sinks 0 s.lc
    match materializeFailFast futures with
    | .error e => (.error e, { s with lc := lc1 })
    | .ok _ => (.ok (), { s with lc := lc1 })

/-- `ScatterSink.dispose`. -/
def ScatterSink.dispose (s : ScatterSink α) : ScatterSink α :=
  { s with lc := compositeDispose s.lc }

/-- A `SplitSink` (`sinks.py`) with the default configuration the claims
fix. -/
structure SplitSink (α : Type) where
  sinks : List (α → Option Exn)
  lc : Lifecycle

/-- `SplitSink.__init__` over the given embedded sinks. -/
def SplitSink.init (sinks : List (α → Option Exn)) : SplitSink α :=
  ⟨sinks, Lifecycle.init sinks.length⟩

/-- `SplitSink._sink_to_task`'s `do_drain` for embedded sink `i`:
`s.__enter__()` then drain `processed_data[i]`. -/
def split_sink_to_task (b : α → Option Exn) (processed_data : List α)
    (i : Nat) (lc : Lifecycle) : FutureState Unit × Lifecycle :=
  if lc.embIsDisposed i then
    (.failure resourceDisposedExn, lc)
  else
    match processed_data[i]? with
    | none => (.failure (.base .indexError "list index out of range"), lc)
    | some x =>
      match b x with
      | none => (.success (), lc)
      | some e => (.failure e, lc)

/-- `SplitSink.drain`: the `@not_disposed` guard, then
`ensure_instance_of(processed_data, Sequence)` (else `TypeError`), then
`ensure_predicate(len(processed_data) == len(self._sinks))` (else
`ValueError` naming both sizes) — both before anything is submitted —
then `self._executor.__enter__()`, `executor.execute(processed_data)` and
`self._result_gatherer(futures)`, whose returned generator is DISCARDED
without being iterated, exactly as in `ScatterSink.drain`. -/
def SplitSink.drain (s : SplitSink α) (processed_data : SeqArg α) :
    Except Exn Unit × SplitSink α :=
  if s.lc.isDisposed then (.error resourceDisposedExn, s)
  else
    match processed_data with
    | .notSeq =>
      (.error
        (.base .typeError
          "'processed_data' MUST be a collections.abc.Sequence object."), s)
    | .ofSeq xs =>
      if xs.length = s.sinks.length then
        if s.lc.execDisposed then (.error resourceDisposedExn, s)
        else
          let (futures, lc1) := runTasks
            (fun b i lc => split_sink_to_task b xs i lc) s.sinks 0 s.lc
          match fail_fast (.ofIterable futures) .pyNone none with
          | .error e => (.error e, { s with lc := lc1 })
          | .ok _ => (.ok (), { s with lc := lc1 })
      else
        (.error
          (.base .valueError
            (expectedSizeMsg "processed_data" s.sinks.length xs.length)), s)

/-- Modelled from the spec: what `SplitSink.drain` is specified to do in
its gathering step — force evaluation of the gatherer's lazy sequence so
failures surface, discarding the yielded values. -/
def SplitSink.drainSpec (s : SplitSink α) (processed_data : SeqArg α) :
    Except Exn Unit × SplitSink α :=
  if s.lc.isDisposed then (.error resourceDisposedExn, s)
  else
    match processed_data with
    | .notSeq =>
      (.error
        (.base .typeError
          "'processed_data' MUST be a collections.abc.Sequence object."), s)
    | .ofSeq xs =>
      if xs.length = s.sinks.length then
        if s.lc.execDisposed then (.error resourceDisposedExn, s)
        else
          let (futures, lc1) := runTasks
            (fun b i lc => split_sink_to_task b xs i lc) s.sinks 0 s.lc
          match materializeFailFast futures with
          | .error e => (.error e, { s with lc := lc1 })
          | .ok _ => (.ok (), { s with lc := lc1 })
      else
        (.error
          (.base .valueError
            (expectedSizeMsg "processed_data" s.sinks.length xs.length)), s)

/-- `SplitSink.dispose`. -/
def SplitSink.dispose (s : SplitSink α) : SplitSink α :=
  { s with lc := compositeDispose s.lc }

/-- The `add_100` processor of the spec's scenarios. -/
def add_100 : Int → Except Exn Int := fun x => .ok (x + 100)

/-- The `mul_by_10` processor of the spec's scenarios. -/
def mul_by_10 : Int → Except Exn Int := fun x => .ok (x * 10)

/-- The `sub_50` processor of the spec's scenarios. -/
def sub_50 : Int → Except Exn Int := fun x => .ok (x - 50)

/-- The exception the failing embedded source `src_b` raises. -/
def boomExn : Exn := .base .runtimeError "src_b failed"

/-- An embedded source whose `draw` succeeds. -/
def src_a : Except Exn String := .ok "hello"

/-- An embedded source whose `draw` raises `boomExn`. -/
def src_b : Except Exn String := .error boomExn

/-- An embedded sink that drains silently. -/
def ok_sink : Int → Option Exn := fun _ => none

/-- The exception the failing embedded sink raises. -/
def sinkBoomExn : Exn := .base .runtimeError "sink failed"

/-- An embedded sink whose `drain` raises `sinkBoomExn`. -/
def failing_sink : Int → Option Exn := fun _ => some sinkBoomExn

/-- The lifecycle state the spec requires after one or more composite
disposals: the composite disposed, every embedded role disposed, and every
embedded role's `dispose()` having been invoked exactly once. -/
def fullyDisposed (k : Nat) : Lifecycle :=
  ⟨List.replicate k true, List.replicate k 1, true, true, true⟩

/-- Consuming `fail_fast._do_gather` over a list of successful futures
followed by a future whose `result()` raises `e` yields exactly the
successful values and then raises per `failFastStep`; nothing after the
failing future is consumed. -/
theorem failFastDoGather_prefix (w : WrapperArg) (msg : Option String)
    (vs : List α) (bad : FutureState α) (rest : List (FutureState α))
    (e : Exn) (hbad : bad.result = .error e) :
    failFastDoGather w msg (vs.map .success ++ bad :: rest)
      = ⟨vs, some (failFastStep w msg e)⟩ := by
  induction vs with
  | nil => simp [failFastDoGather, hbad]
  | cons v vs ih =>
    simp [failFastDoGather, FutureState.result, GatherOut.cons, ih]

/-- Claim C4: for futures whose first failure sits at index `k` (here: `vs`
successful values followed by a failing future), `fail_fast` returns its
generator without raising, and consuming the generator yields the `k`
successful values in order and then raises — the original exception when no
wrapper factory was supplied, and the factory-built exception with the
original attached as its `__cause__` when one was; no element is produced
after the failure. -/
theorem fail_fast_yields_prefix_then_raises (vs : List α)
    (bad : FutureState α) (rest : List (FutureState α)) (e : Exn)
    (msg : Option String) (fac : Option String → Exn)
    (hbad : bad.result = .error e) :
    (∃ gen,
        fail_fast (.ofIterable (vs.map .success ++ bad :: rest)) .pyNone msg
            = .ok gen
          ∧ gen.consume = ⟨vs, some e⟩)
      ∧ (∃ gen,
        fail_fast (.ofIterable (vs.map .success ++ bad :: rest))
            (.ofCallable fac) msg = .ok gen
          ∧ gen.consume = ⟨vs, some ((fac msg).withCause e)⟩) := by
  constructor
  · refine ⟨_, rfl, ?_⟩
    rw [FailFastGen.consume, failFastDoGather_prefix _ _ _ _ _ _ hbad]
    rfl
  · refine ⟨_, rfl, ?_⟩
    rw [FailFastGen.consume, failFastDoGather_prefix _ _ _ _ _ _ hbad]
    rfl

/-- Witness for C4: the theorem applied to two successful futures, a
failing third and one more future after it. -/
theorem fail_fast_yields_prefix_then_raises_witness :
    (FutureState.failure (α := Nat) (.base .runtimeError "k failed")).result
        = .error (.base .runtimeError "k failed")
      ∧ ((∃ gen,
          fail_fast
              (.ofIterable
                (([1, 2] : List Nat).map .success
                  ++ .failure (.base .runtimeError "k failed")
                    :: [.success 9])) .pyNone none = .ok gen
            ∧ gen.consume = ⟨[1, 2], some (.base .runtimeError "k failed")⟩)
        ∧ (∃ gen,
          fail_fast
              (.ofIterable
                (([1, 2] : List Nat).map .success
                  ++ .failure (.base .runtimeError "k failed")
                    :: [.success 9]))
              (.ofCallable fun m => .base .valueError (m.getD "wrapped"))
              none = .ok gen
            ∧ gen.consume
              = ⟨[1, 2],
                  some ((Exn.base .valueError "wrapped").withCause
                    (.base .runtimeError "k failed"))⟩)) :=
  ⟨rfl,
    fail_fast_yields_prefix_then_raises [1, 2]
      (.failure (.base .runtimeError "k failed")) [.success 9]
      (.base .runtimeError "k failed") none
      (fun m => .base .valueError (m.getD "wrapped")) rfl⟩

/-- Claim C5: `ignored_failed` returns its generator without raising, and
consuming the generator yields exactly the successful futures' values in
their original relative order, skipping failed and cancelled futures, and
never raises because of a handle failure. -/
theorem ignored_failed_yields_successes (α : Type)
    (fs : List (FutureState α)) :
    ∃ gen, ignored_failed (.ofIterable fs) = .ok gen
      ∧ gen.consume = ⟨fs.filterMap successValue, none⟩ := by
  refine ⟨⟨fs⟩, rfl, ?_⟩
  show ignoredFailedDoGather fs = _
  induction fs with
  | nil => rfl
  | cons f fs ih =>
    cases f <;>
      simp [ignoredFailedDoGather, future_succeeded, FutureState.result,
        GatherOut.cons, successValue, ih]

/-- Claim C9 counterexample: a falsy non-callable `exc_wrapper_factory`
(such as `0`) is given and is not callable, yet `fail_fast` raises no
`ValueError` — the `callable(...) if exc_wrapper_factory else True` check
skips falsy values, so the call returns the generator normally. -/
theorem fail_fast_falsy_factory_counterexample :
    fail_fast (.ofIterable [FutureState.success (1 : Nat)])
        (.notCallable false) none
      = .ok ⟨[FutureState.success 1], .notCallable false, none⟩ := rfl

/-- Claim C9 (amended): argument-validation errors are raised at the call
itself, never deferred: a non-`Iterable` futures argument raises
`TypeError` immediately in both gatherers, and a *truthy* non-callable
`exc_wrapper_factory` raises `ValueError` immediately (a falsy
non-callable is treated as absent and raises nothing); for valid arguments
the call raises nothing and merely returns the un-iterated generator, so
failures can only surface during consumption. -/
theorem gatherer_validation_amended (α : Type) :
    (∀ (w : WrapperArg) (msg : Option String),
        fail_fast (.notIterable : FuturesArg α) w msg
          = .error (.base .typeError "'futures' MUST be an Iterable."))
      ∧ (∀ (fs : List (FutureState α)) (msg : Option String),
        fail_fast (.ofIterable fs) (.notCallable true) msg
          = .error (.base .valueError
              "When not None, 'exc_wrapper_factory' MUST be a callable."))
      ∧ (∀ (fs : List (FutureState α)) (msg : Option String),
        fail_fast (.ofIterable fs) .pyNone msg = .ok ⟨fs, .pyNone, msg⟩)
      ∧ (∀ (fs : List (FutureState α)) (msg : Option String)
          (f : Option String → Exn),
        fail_fast (.ofIterable fs) (.ofCallable f) msg
          = .ok ⟨fs, .ofCallable f, msg⟩)
      ∧ ignored_failed (.notIterable : FuturesArg α)
          = .error (.base .typeError "'futures' MUST be an Iterable.")
      ∧ (∀ fs : List (FutureState α),
        ignored_failed (.ofIterable fs) = .ok ⟨fs⟩) :=
  ⟨fun _ _ => rfl, fun _ _ => rfl, fun _ _ => rfl, fun _ _ _ => rfl, rfl,
    fun _ => rfl⟩

/-- Claim C7: the spec's scatter scenario —
`ScatterGatherProcessor([add_100, mul_by_10, sub_50]).apply(10)` with the
default fail-fast gatherer returns `(110, 100, -40)` in exactly that
order: every embedded processor receives the same input `10` and the
output order is the declaration order of the embedded processors. -/
theorem scatterGather_scenario_apply_ten :
    ((ScatterGatherProcessor.init [add_100, mul_by_10, sub_50]).apply
        10).fst = .ok [110, 100, -40] := rfl

/-- Claim C8: the spec's split scenario —
`SplitGatherProcessor([add_100, mul_by_10, sub_50]).apply([-90, 1, 60])`
returns `(10, 10, 10)`: the unit of work at index `i` applies the `i`-th
embedded processor to the `i`-th input element, results in embedded-
processor order. -/
theorem splitGather_scenario_index_pairing :
    ((SplitGatherProcessor.init [add_100, mul_by_10, sub_50]).apply
        (.ofSeq [-90, 1, 60])).fst = .ok [10, 10, 10] := rfl

/-- Claim C6: for a non-disposed `SplitGatherProcessor` (resp. `SplitSink`),
`apply` (resp. `drain`) with a sequence whose length differs from the
number of embedded roles raises a `ValueError` whose message names the
expected and the actual size, and with a non-`Sequence` argument raises a
`TypeError`; in both cases the composite is returned unchanged — the error
is raised before any unit of work is submitted. -/
theorem split_variants_validate_input_shape (α β γ : Type)
    (p : SplitGatherProcessor α β) (s : SplitSink γ)
    (xs : List α) (ys : List γ)
    (hp : p.lc.isDisposed = false) (hs : s.lc.isDisposed = false)
    (hx : xs.length ≠ p.processors.length)
    (hy : ys.length ≠ s.sinks.length) :
    p.apply (.ofSeq xs)
        = (.error (.base .valueError
            (expectedSizeMsg "raw_data" p.processors.length xs.length)), p)
      ∧ p.apply .notSeq
        = (.error (.base .typeError
            "'raw_data' MUST be a collections.abc.Sequence object."), p)
      ∧ s.drain (.ofSeq ys)
        = (.error (.base .valueError
            (expectedSizeMsg "processed_data" s.sinks.length ys.length)), s)
      ∧ s.drain .notSeq
        = (.error (.base .typeError
            "'processed_data' MUST be a collections.abc.Sequence object."),
            s) := by
  refine ⟨?_, ?_, ?_, ?_⟩ <;>
    simp [SplitGatherProcessor.apply, SplitSink.drain, hp, hs, hx, hy]

/-- Witness for C6: the theorem applied to a one-processor split processor
and a one-sink split sink, each given a length-2 input. -/
theorem split_variants_validate_input_shape_witness :
    (SplitGatherProcessor.init [add_100]).lc.isDisposed = false
      ∧ (SplitSink.init [ok_sink]).lc.isDisposed = false
      ∧ ([(1 : Int), 2].length
          ≠ (SplitGatherProcessor.init [add_100]).processors.length)
      ∧ ([(3 : Int), 4].length ≠ (SplitSink.init [ok_sink]).sinks.length)
      ∧ ((SplitGatherProcessor.init [add_100]).apply (.ofSeq [1, 2])
          = (.error (.base .valueError
              (expectedSizeMsg "raw_data"
                (SplitGatherProcessor.init [add_100]).processors.length
                [(1 : Int), 2].length)),
              SplitGatherProcessor.init [add_100])
        ∧ (SplitGatherProcessor.init [add_100]).apply .notSeq
          = (.error (.base .typeError
              "'raw_data' MUST be a collections.abc.Sequence object."),
              SplitGatherProcessor.init [add_100])
        ∧ (SplitSink.init [ok_sink]).drain (.ofSeq [3, 4])
          = (.error (.base .valueError
              (expectedSizeMsg "processed_data"
                (SplitSink.init [ok_sink]).sinks.length
                [(3 : Int), 4].length)),
              SplitSink.init [ok_sink])
        ∧ (SplitSink.init [ok_sink]).drain .notSeq
          = (.error (.base .typeError
              "'processed_data' MUST be a collections.abc.Sequence object."),
              SplitSink.init [ok_sink])) :=
  ⟨rfl, rfl, by decide, by decide,
    split_variants_validate_input_shape Int Int Int
      (SplitGatherProcessor.init [add_100]) (SplitSink.init [ok_sink])
      [1, 2] [3, 4] rfl rfl (by decide) (by decide)⟩

/-- Claim C1 (evaluating the code at the failing input): a `ScatterSink`
(resp. `SplitSink`) over a silently draining sink and a failing sink, with
the default fail-fast gatherer, `drain`s WITHOUT raising — the gatherer's
generator is discarded unevaluated — while the spec-modelled variant that
forces the gatherer's lazy sequence raises the embedded sink's exception. -/
theorem sink_drain_swallows_embedded_failures :
    ((ScatterSink.init [ok_sink, failing_sink]).drain 5).fst = .ok ()
      ∧ ((SplitSink.init [ok_sink, failing_sink]).drain
          (.ofSeq [5, 6])).fst = .ok ()
      ∧ ((ScatterSink.init [ok_sink, failing_sink]).drainSpec 5).fst
          = .error sinkBoomExn
      ∧ ((SplitSink.init [ok_sink, failing_sink]).drainSpec
          (.ofSeq [5, 6])).fst = .error sinkBoomExn :=
  ⟨rfl, rfl, rfl, rfl⟩

/-- Claim C2 (evaluating the code at the failing input): drawing from
`GatherSource([src_a, src_b])` where `src_b` fails raises the original
exception from `src_b` and leaves the composite itself undisposed, but —
against the claim — both embedded sources come out DISPOSED: the `with`
statement in `_source_to_task` disposes each embedded source as its unit
of work finishes. -/
theorem gatherSource_failing_draw_disposes_embedded :
    ((GatherSource.init [src_a, src_b]).draw).fst = .error boomExn
      ∧ ((GatherSource.init [src_a, src_b]).draw).snd.lc.isDisposed = false
      ∧ ((GatherSource.init [src_a, src_b]).draw).snd.lc.embDisposed
          = [true, true] :=
  ⟨rfl, rfl, rfl⟩

/-- Claim C3 (evaluating the code at the failing input): a never-disposed
`GatherSource` draws successfully once, but the second draw fails with the
disposed-resource error because `with self._executor` disposed the
internal executor when the first draw returned; a
`ScatterGatherProcessor`, which enters its executor without a `with`
block, supports repeated `apply` as the claim demands. -/
theorem gatherSource_draw_not_reinvocable :
    ((GatherSource.init [src_a]).draw).fst = .ok ["hello"]
      ∧ (((GatherSource.init [src_a]).draw).snd.draw).fst
          = .error resourceDisposedExn
      ∧ ((ScatterGatherProcessor.init [add_100]).apply 1).fst = .ok [101]
      ∧ ((((ScatterGatherProcessor.init [add_100]).apply 1).snd).apply
          2).fst = .ok [102] :=
  ⟨rfl, rfl, rfl, rfl⟩

theorem compositeDispose_init (k : Nat) :
    compositeDispose (Lifecycle.init k) = fullyDisposed k := by
  simp [compositeDispose, exitStackClose, executorDispose, Lifecycle.init,
    fullyDisposed, List.map_replicate]

theorem compositeDispose_fullyDisposed (k : Nat) :
    compositeDispose (fullyDisposed k) = fullyDisposed k := rfl

theorem compositeDispose_iterate_fullyDisposed (k n : Nat) :
    compositeDispose^[n] (fullyDisposed k) = fullyDisposed k := by
  induction n with
  | zero => rfl
  | succ n ih =>
    rw [Function.iterate_succ_apply, compositeDispose_fullyDisposed, ih]

theorem compositeDispose_iterate_init (k n : Nat) (hn : 1 ≤ n) :
    compositeDispose^[n] (Lifecycle.init k) = fullyDisposed k := by
  obtain ⟨m, rfl⟩ := Nat.exists_eq_add_of_le hn
  rw [Nat.add_comm, Function.iterate_add_apply, Function.iterate_one,
    compositeDispose_init, compositeDispose_iterate_fullyDisposed]

theorem gatherSource_dispose_iterate (g : GatherSource α) (n : Nat) :
    GatherSource.dispose^[n] g = ⟨g.sources, compositeDispose^[n] g.lc⟩ := by
  induction n with
  | zero => rfl
  | succ n ih =>
    rw [Function.iterate_succ_apply', Function.iterate_succ_apply', ih]
    rfl

theorem scatterGather_dispose_iterate (p : ScatterGatherProcessor α β)
    (n : Nat) :
    ScatterGatherProcessor.dispose^[n] p
      = ⟨p.processors, compositeDispose^[n] p.lc⟩ := by
  induction n with
  | zero => rfl
  | succ n ih =>
    rw [Function.iterate_succ_apply', Function.iterate_succ_apply', ih]
    rfl

theorem splitGather_dispose_iterate (p : SplitGatherProcessor α β)
    (n : Nat) :
    SplitGatherProcessor.dispose^[n] p
      = ⟨p.processors, compositeDispose^[n] p.lc⟩ := by
  induction n with
  | zero => rfl
  | succ n ih =>
    rw [Function.iterate_succ_apply', Function.iterate_succ_apply', ih]
    rfl

theorem scatterSink_dispose_iterate (s : ScatterSink α) (n : Nat) :
    ScatterSink.dispose^[n] s = ⟨s.sinks, compositeDispose^[n] s.lc⟩ := by
  induction n with
  | zero => rfl
  | succ n ih =>
    rw [Function.iterate_succ_apply', Function.iterate_succ_apply', ih]
    rfl

theorem splitSink_dispose_iterate (s : SplitSink α) (n : Nat) :
    SplitSink.dispose^[n] s = ⟨s.sinks, compositeDispose^[n] s.lc⟩ := by
  induction n with
  | zero => rfl
  | succ n ih =>
    rw [Function.iterate_succ_apply', Function.iterate_succ_apply', ih]
    rfl

/-- Claim C10: for every one of the five composite role types, freshly
constructed over arbitrary embedded roles, calling `dispose()` any number
`n ≥ 1` of times leaves the composite's `is_disposed` true, every embedded
role's `is_disposed` true, and every embedded role's `dispose()` invoked
exactly once (repeated composite disposals do not dispose embedded roles
again); `dispose` is modelled as a total function, so no call raises. -/
theorem composite_dispose_idempotent (α β : Type)
    (srcs : List (Except Exn α)) (procs : List (α → Except Exn β))
    (sks : List (α → Option Exn)) (n : Nat) (hn : 1 ≤ n) :
    (GatherSource.dispose^[n] (GatherSource.init srcs)).lc
        = fullyDisposed srcs.length
      ∧ (ScatterGatherProcessor.dispose^[n]
          (ScatterGatherProcessor.init procs)).lc
        = fullyDisposed procs.length
      ∧ (SplitGatherProcessor.dispose^[n]
          (SplitGatherProcessor.init procs)).lc
        = fullyDisposed procs.length
      ∧ (ScatterSink.dispose^[n] (ScatterSink.init sks)).lc
        = fullyDisposed sks.length
      ∧ (SplitSink.dispose^[n] (SplitSink.init sks)).lc
        = fullyDisposed sks.length := by
  refine ⟨?_, ?_, ?_, ?_, ?_⟩
  · rw [gatherSource_dispose_iterate]
    exact compositeDispose_iterate_init _ _ hn
  · rw [scatterGather_dispose_iterate]
    exact compositeDispose_iterate_init _ _ hn
  · rw [splitGather_dispose_iterate]
    exact compositeDispose_iterate_init _ _ hn
  · rw [scatterSink_dispose_iterate]
    exact compositeDispose_iterate_init _ _ hn
  · rw [splitSink_dispose_iterate]
    exact compositeDispose_iterate_init _ _ hn

/-- Witness for C10: the theorem applied with two `dispose()` calls to
one-element composites. -/
theorem composite_dispose_idempotent_witness :
    1 ≤ 2
      ∧ ((GatherSource.dispose^[2]
            (GatherSource.init [(.ok 7 : Except Exn Int)])).lc
          = fullyDisposed [(.ok 7 : Except Exn Int)].length
        ∧ (ScatterGatherProcessor.dispose^[2]
            (ScatterGatherProcessor.init [add_100])).lc
          = fullyDisposed [add_100].length
        ∧ (SplitGatherProcessor.dispose^[2]
            (SplitGatherProcessor.init [add_100])).lc
          = fullyDisposed [add_100].length
        ∧ (ScatterSink.dispose^[2] (ScatterSink.init [ok_sink])).lc
          = fullyDisposed [ok_sink].length
        ∧ (SplitSink.dispose^[2] (SplitSink.init [ok_sink])).lc
          = fullyDisposed [ok_sink].length) :=
  ⟨by decide,
    composite_dispose_idempotent Int Int [(.ok 7 : Except Exn Int)]
      [add_100] [ok_sink] 2 (by decide)⟩

end SghiEtl
